import Mathlib

/-!
Verification of the WhatsApp task-manager's command-dispatch and
financial-derivation pipeline, as a shallow embedding of the Go source
(`internal/services/order_service.go`, `internal/services/ai_processor.go`,
`internal/handlers/whatsapp_handler.go`, `internal/handlers/api_handler.go`,
`internal/repository/task_repository.go`, the financial repository and the
model package).

Modelling conventions:
* Go `float64` values are embedded as exact rationals (`Rat`); the one place
  where IEEE special values matter (an unguarded `x / 0`) is modelled with an
  explicit `GoFloat` type carrying `nan`.
* The relational store and the Redis cache are embedded as in-memory state
  (`DB`, `ChatStore`) threaded explicitly; repository calls that can only fail
  on I/O are modelled as total.
* Go string primitives (`strings.Contains`, `strings.Fields`, `strconv.Atoi`,
  ...) are re-implemented structurally over `List Char` so that every
  definition evaluates inside the kernel.
-/

namespace TaskManager

/-! ## Go string and strconv primitives -/

/-- ASCII whitespace recognised by `strings.Fields` / `strings.TrimSpace`
(the Unicode cases of the Go originals are not exercised by the system's
command strings). -/
def isSpaceChar (c : Char) : Bool :=
  c == ' ' || c == '\t' || c == '\n' || c == '\r'

/-- Accumulator-style worker for `goFields`. -/
def fieldsAux : List Char → List Char → List String
  | acc, [] => if acc.isEmpty then [] else [⟨acc.reverse⟩]
  | acc, c :: cs =>
    if isSpaceChar c then
      if acc.isEmpty then fieldsAux [] cs
      else ⟨acc.reverse⟩ :: fieldsAux [] cs
    else fieldsAux (c :: acc) cs

/-- Go `strings.Fields`: split around runs of whitespace, dropping empties. -/
def goFields (s : String) : List String := fieldsAux [] s.data

/-- Go `strings.TrimSpace`. -/
def goTrimSpace (s : String) : String :=
  ⟨((s.data.dropWhile isSpaceChar).reverse.dropWhile isSpaceChar).reverse⟩

/-- Go `strings.ToLower` (ASCII case mapping). -/
def goToLower (s : String) : String := ⟨s.data.map Char.toLower⟩

/-- Whether `pat` is a prefix of the character list. -/
def isPre : List Char → List Char → Bool
  | [], _ => true
  | _ :: _, [] => false
  | a :: as, b :: bs => a == b && isPre as bs

/-- Worker for `goContains`: does `pat` occur at any position? -/
def containsAux (pat : List Char) : List Char → Bool
  | [] => isPre pat []
  | c :: cs => isPre pat (c :: cs) || containsAux pat cs

/-- Go `strings.Contains s pat`. -/
def goContains (s pat : String) : Bool := containsAux pat.data s.data

/-- Go `strings.HasPrefix s pat`. -/
def goHasPre (s pat : String) : Bool := isPre pat.data s.data

/-- Numeric value of an ASCII digit. -/
def digitVal (c : Char) : Option Nat :=
  if '0' ≤ c && c ≤ '9' then some (c.toNat - '0'.toNat) else none

/-- Fold a digit string into a natural number; fails on any non-digit. -/
def parseDigits : Nat → List Char → Option Nat
  | acc, [] => some acc
  | acc, c :: cs =>
    match digitVal c with
    | some d => parseDigits (acc * 10 + d) cs
    | none => none

/-- Parse a non-empty all-digit string. -/
def goParseNat (s : String) : Option Nat :=
  if s.data.isEmpty then none else parseDigits 0 s.data

/-- Go `strconv.ParseUint(s, 10, 32)`: unsigned decimal below `2^32`. -/
def goParseUint32 (s : String) : Option Nat :=
  match goParseNat s with
  | some n => if n < 4294967296 then some n else none
  | none => none

/-- Go `strconv.Atoi` (decimal with optional sign; the 64-bit range check,
never reached by chat-sized inputs, is not modelled). -/
def goAtoi (s : String) : Option Int :=
  match s.data with
  | '-' :: rest =>
    if rest.isEmpty then none else (parseDigits 0 rest).map (fun n => -(n : Int))
  | '+' :: rest =>
    if rest.isEmpty then none else (parseDigits 0 rest).map (fun n => (n : Int))
  | _ => (goParseNat s).map (fun n => (n : Int))

/-- Split a character list at the first dot. -/
def breakAtDot : List Char → List Char × Option (List Char)
  | [] => ([], none)
  | c :: cs =>
    if c == '.' then ([], some cs)
    else
      let r := breakAtDot cs
      (c :: r.1, r.2)

/-- Magnitude part of Go `strconv.ParseFloat` restricted to plain decimal
notation (exponent and hex forms are not used by the handlers). -/
def goParseFloatMag (s : List Char) : Option Rat :=
  match breakAtDot s with
  | (intPart, none) =>
    if intPart.isEmpty then none
    else (parseDigits 0 intPart).map (fun n => (n : Rat))
  | (intPart, some fracPart) =>
    if fracPart.contains '.' then none
    else if intPart.isEmpty && fracPart.isEmpty then none
    else
      match parseDigits 0 intPart, parseDigits 0 fracPart with
      | some i, some f =>
        some ((i : Rat) + (f : Rat) / ((10 : Rat) ^ fracPart.length))
      | _, _ => none

/-- Go `strconv.ParseFloat(s, 64)` on plain decimal notation, embedded into
the exact rationals. -/
def goParseFloat (s : String) : Option Rat :=
  match s.data with
  | '-' :: rest => (goParseFloatMag rest).map (fun q => -q)
  | '+' :: rest => goParseFloatMag rest
  | cs => goParseFloatMag cs

/-! ## IEEE-754 special values

Go float division is total: `0.0 / 0.0` is `NaN` and `x / 0.0` is `±Inf`.
`GoFloat` records exactly that distinction where the source divides without a
zero guard. -/

/-- Result of a Go float operation: a finite rational, infinity, or NaN. -/
inductive GoFloat where
  | nan : GoFloat
  | inf : GoFloat
  | val : Rat → GoFloat
deriving Repr, DecidableEq

/-- Go float division (signs of infinities are not needed: both operands are
counts, hence non-negative, wherever this is used). -/
def goDiv (a b : Rat) : GoFloat :=
  if b = 0 then (if a = 0 then .nan else .inf) else .val (a / b)

/-- Multiply a Go float by a finite constant (`NaN` propagates). -/
def goMul (x : GoFloat) (c : Rat) : GoFloat :=
  match x with
  | .nan => .nan
  | .inf => if c = 0 then .nan else .inf
  | .val q => .val (q * c)

/-! ## Data model (`internal/models`) -/

/-- `models.UserRole` constant `SuperAdmin`. -/
def SuperAdmin : String := "super_admin"

/-- `models.UserRole` constant `Admin`. -/
def Admin : String := "admin"

/-- `models.UserRole` constant `Users`. -/
def Users : String := "user"

/-- `models.TaskStatus` constant `Pending`. -/
def Pending : String := "pending"

/-- `models.TaskStatus` constant `InProgress`. -/
def InProgress : String := "in_progress"

/-- `models.TaskStatus` constant `Completed`. -/
def Completed : String := "completed"

/-- `models.TaskStatus` constant `Overdue`. -/
def Overdue : String := "overdue"

/-- `models.TaskPriority` constant `Medium`. -/
def Medium : String := "medium"

/-- `models.TaskType` constants. -/
def DailyType : String := "daily"

/-- `models.TaskType` constant `Monthly`. -/
def MonthlyType : String := "monthly"

/-- `models.TaskType` constant `Custom`. -/
def CustomType : String := "custom"

/-- `models.OrderItemStatus` constant `ItemPending`. -/
def ItemPending : String := "pending"

/-- `models.OrderItemStatus` constant `ItemCompleted`. -/
def ItemCompleted : String := "completed"

/-- `models.OrderStatus` constant `OrderPending`. -/
def OrderPending : String := "pending"

/-- `models.User` (timestamps and soft-delete bookkeeping omitted). -/
structure User where
  id : Nat
  username : String
  email : String
  phoneNumber : String
  role : String
  whatsAppNumber : String
  isActive : Bool
deriving Repr, DecidableEq

/-- `models.Task` (timestamp pointers omitted; they are never read by the
verified operations). -/
structure Task where
  id : Nat
  title : String
  description : String
  assignedTo : Nat
  status : String
  priority : String
  completionPercentage : Int
  isImplemented : Bool
  implementationNotes : String
  taskType : String
  isRecurring : Bool
  recurringPattern : String
  createdBy : Nat
deriving Repr, DecidableEq

/-- Go zero value of `models.Task`, as produced by a struct literal that
omits fields. -/
def emptyTask : Task :=
  ⟨0, "", "", 0, "", "", 0, false, "", "", false, "", 0⟩

/-- `models.TaskProgress`: one append-only audit row. -/
structure TaskProgress where
  taskID : Nat
  completionPercentage : Int
  isImplemented : Bool
  implementationNotes : String
  updatedBy : Nat
  updatedAt : Nat
deriving Repr, DecidableEq

/-- `models.Order`; time stamps are abstract tick counts. -/
structure Order where
  id : Nat
  orderNumber : String
  customerName : String
  status : String
  orderDate : Nat
  totalAmount : Rat
  taxPercentage : Rat
  taxAmount : Rat
  marketingPercentage : Rat
  marketingCost : Rat
  rentalPercentage : Rat
  rentalCost : Rat
  netProfit : Rat
  calculationTimestamp : Nat
  createdBy : Nat
deriving Repr, DecidableEq

/-- Go zero value of `models.Order`. -/
def emptyOrder : Order :=
  ⟨0, "", "", "", 0, 0, 0, 0, 0, 0, 0, 0, 0, 0, 0⟩

/-- `models.OrderItem`. -/
structure OrderItem where
  id : Nat
  orderID : Nat
  itemName : String
  quantity : Int
  unitPrice : Rat
  totalPrice : Rat
  description : String
  status : String
deriving Repr, DecidableEq

/-- `models.FinancialSettings`. -/
structure FinancialSettings where
  settingName : String
  percentageValue : Rat
  fixedAmount : Rat
  isPercentage : Bool
  isActive : Bool
  createdBy : Nat
deriving Repr, DecidableEq

/-- `models.CalculationHistory`: immutable snapshot of one derivation run. -/
structure CalculationHistory where
  orderID : Nat
  calculationType : String
  inputValue : Rat
  percentageUsed : Rat
  calculatedAmount : Rat
  calculationTimestamp : Nat
deriving Repr, DecidableEq

/-- The relational store, embedded as in-memory lists (gorm `Create` appends;
`Where(...).First` is `List.find?`). -/
structure DB where
  users : List User
  tasks : List Task
  taskProgressRows : List TaskProgress
  orders : List Order
  orderItems : List OrderItem
  financialSettings : List FinancialSettings
  calculationHistory : List CalculationHistory
deriving Repr, DecidableEq

/-! ## Repositories -/

/-- `financialRepository.GetSettings`: first row with the given name that is
active, or gorm's record-not-found error. -/
def GetSettings (db : DB) (settingName : String) : Except String FinancialSettings :=
  match db.financialSettings.find? (fun s => s.settingName == settingName && s.isActive) with
  | some s => .ok s
  | none => .error "record not found"

/-- `financialRepository.CreateCalculationHistory`: gorm `Create`, an append. -/
def CreateCalculationHistory (db : DB) (history : CalculationHistory) : DB :=
  { db with calculationHistory := db.calculationHistory ++ [history] }

/-- `orderRepository.GetByID`: `db.First(&order, id)`. -/
def OrderRepoGetByID (db : DB) (id : Nat) : Except String Order :=
  match db.orders.find? (fun o => o.id == id) with
  | some o => .ok o
  | none => .error "record not found"

/-- `orderItemRepository.GetByOrderID`. -/
def OrderItemsGetByOrderID (db : DB) (orderID : Nat) : List OrderItem :=
  db.orderItems.filter (fun it => it.orderID == orderID)

/-- `taskRepository.UpdateProgress` (task_repository.go:68-95): a gorm
`Updates` on the matching task row (no error when zero rows match), then an
unconditional `Create` of a new `TaskProgress` audit row. -/
def UpdateProgress (db : DB) (now : Nat) (taskID : Nat) (progress : Int)
    (isImplemented : Bool) (notes : String) (updatedBy : Nat) : DB :=
  let tasks := db.tasks.map (fun t =>
    if t.id == taskID then
      { t with completionPercentage := progress, isImplemented := isImplemented,
               implementationNotes := notes }
    else t)
  let progressRecord : TaskProgress :=
    ⟨taskID, progress, isImplemented, notes, updatedBy, now⟩
  { db with tasks := tasks, taskProgressRows := db.taskProgressRows ++ [progressRecord] }

/-- `taskService.UpdateTaskProgress` forwards to the repository; the Redis
progress cache it additionally writes is not observable by any claim and is
not modelled. -/
def UpdateTaskProgress (db : DB) (now : Nat) (taskID : Nat) (progress : Int)
    (isImplemented : Bool) (notes : String) (updatedBy : Nat) : DB :=
  UpdateProgress db now taskID progress isImplemented notes updatedBy

/-! ## Financial derivation engine (`order_service.go`) -/

/-- `orderService.CalculateFinancials` (order_service.go:74-120). All three
rate fetches happen before the first derived-field write, so a fetch failure
leaves the order untouched; on success the derived order and the appended
`CalculationHistory` row are returned. -/
def CalculateFinancials (db : DB) (now : Nat) (order : Order) :
    Except String (Order × DB) :=
  match GetSettings db "tax_rate" with
  | .error e => .error ("failed to get tax settings: " ++ e)
  | .ok taxSettings =>
  match GetSettings db "marketing_rate" with
  | .error e => .error ("failed to get marketing settings: " ++ e)
  | .ok marketingSettings =>
  match GetSettings db "rental_rate" with
  | .error e => .error ("failed to get rental settings: " ++ e)
  | .ok rentalSettings =>
    let o1 := { order with
      taxPercentage := taxSettings.percentageValue,
      taxAmount := order.totalAmount * (taxSettings.percentageValue / 100) }
    let o2 := { o1 with
      marketingPercentage := marketingSettings.percentageValue,
      marketingCost := o1.totalAmount * (marketingSettings.percentageValue / 100) }
    let o3 := { o2 with
      rentalPercentage := rentalSettings.percentageValue,
      rentalCost := o2.totalAmount * (rentalSettings.percentageValue / 100) }
    let o4 := { o3 with
      netProfit := o3.totalAmount - o3.taxAmount - o3.marketingCost - o3.rentalCost,
      calculationTimestamp := now }
    let history : CalculationHistory :=
      ⟨order.id, "net_profit", o4.totalAmount,
       taxSettings.percentageValue + marketingSettings.percentageValue
         + rentalSettings.percentageValue,
       o4.netProfit, now⟩
    .ok (o4, CreateCalculationHistory db history)

/-- `orderService.CreateOrder` (order_service.go:40-47): derive financials
first, abort on failure, then persist. -/
def CreateOrder (db : DB) (now : Nat) (order : Order) : Except String DB :=
  match CalculateFinancials db now order with
  | .error e => .error e
  | .ok (o, db1) => .ok { db1 with orders := db1.orders ++ [o] }

/-- `orderService.UpdateOrder` (order_service.go:61-68): re-derive, then gorm
`Save` (replace the row with the same primary key, insert if absent). -/
def UpdateOrder (db : DB) (now : Nat) (order : Order) : Except String DB :=
  match CalculateFinancials db now order with
  | .error e => .error e
  | .ok (o, db1) =>
    .ok { db1 with orders :=
      if db1.orders.any (fun x => x.id == o.id) then
        db1.orders.map (fun x => if x.id == o.id then o else x)
      else db1.orders ++ [o] }

/-- `orderService.AddItemToOrder` (order_service.go:128-150): the parent order
must exist (the `order == nil` branch after a non-nil error is dead code);
the line total is computed once at creation time. -/
def AddItemToOrder (db : DB) (orderID : Nat) (itemName : String) (quantity : Int)
    (price : Rat) (description : String) : Except String DB :=
  match OrderRepoGetByID db orderID with
  | .error e => .error e
  | .ok _ =>
    let orderItem : OrderItem :=
      ⟨0, orderID, itemName, quantity, price, (quantity : Rat) * price,
       description, ItemPending⟩
    .ok { db with orderItems := db.orderItems ++ [orderItem] }

/-- Result map of `GetOrderItemsSummary`, with the map's keys as fields. -/
structure OrderItemsSummary where
  totalItems : Nat
  totalQuantity : Int
  totalValue : Rat
  pendingItems : Nat
  completedItems : Nat
  completionRate : GoFloat
deriving Repr, DecidableEq

/-- `orderService.GetOrderItemsSummary` (order_service.go:177-208). The
completion rate is `float64(completedItems) / float64(totalItems) * 100`
with no zero-items guard. -/
def GetOrderItemsSummary (db : DB) (orderID : Nat) : OrderItemsSummary :=
  let orderItems := OrderItemsGetByOrderID db orderID
  let totalItems := orderItems.length
  let totalQuantity := orderItems.foldl (fun acc it => acc + it.quantity) 0
  let totalValue := orderItems.foldl (fun acc it => acc + it.totalPrice) 0
  let pendingItems := (orderItems.filter (fun it => it.status == ItemPending)).length
  let completedItems := (orderItems.filter (fun it => it.status == ItemCompleted)).length
  ⟨totalItems, totalQuantity, totalValue, pendingItems, completedItems,
   goMul (goDiv (completedItems : Rat) (totalItems : Rat)) 100⟩

/-! ## Conversation memory (`ai_processor.go`, Redis-backed) -/

/-- `services.ChatMessage`. -/
structure ChatMessage where
  role : String
  content : String
  time : Nat
deriving Repr, DecidableEq

/-- One Redis list value together with its expiry deadline (absolute tick). -/
structure RedisList where
  items : List ChatMessage
  expiresAt : Option Nat
deriving Repr, DecidableEq

/-- A Redis key that was never written. -/
def emptyRedisList : RedisList := ⟨[], none⟩

/-- The key-value store holding the per-user chat rings. -/
abbrev ChatStore := List (String × RedisList)

/-- Look a key up (an absent key reads as the empty list). -/
def storeGet (st : ChatStore) (key : String) : RedisList :=
  (((st.find? (fun p => p.1 == key)).map Prod.snd)).getD emptyRedisList

/-- Write a key (replace the first occurrence if present — keys are unique —
insert otherwise). -/
def storeSet : ChatStore → String → RedisList → ChatStore
  | [], key, l => [(key, l)]
  | p :: st, key, l =>
    if p.1 == key then (key, l) :: st else p :: storeSet st key l

/-- Redis expiry semantics: a key whose deadline has passed reads as absent. -/
def liveItems (l : RedisList) (now : Nat) : List ChatMessage :=
  match l.expiresAt with
  | some e => if now < e then l.items else []
  | none => l.items

/-- Redis key for a user's chat history. -/
def chatKey (userID : String) : String := "ai_chat_history:" ++ userID

/-- `aiProcessor.SaveChatMessage` (ai_processor.go:637-670): `LPUSH` the new
message, `LTRIM 0 2` to keep the newest three, `EXPIRE` to 10 minutes
(600 ticks) from now. -/
def SaveChatMessage (st : ChatStore) (now : Nat) (userID role content : String) :
    ChatStore :=
  let key := chatKey userID
  let cur := liveItems (storeGet st key) now
  let items := (ChatMessage.mk role content now :: cur).take 3
  storeSet st key ⟨items, some (now + 600)⟩

/-- `aiProcessor.GetChatHistory` (ai_processor.go:615-634): `LRANGE 0 2` on
the user's key (the per-entry JSON decoding never fails on entries this
system writes). -/
def GetChatHistory (st : ChatStore) (now : Nat) (userID : String) : List ChatMessage :=
  (liveItems (storeGet st (chatKey userID)) now).take 3

/-- `aiProcessor.ClearChatHistory`: delete the key. -/
def ClearChatHistory (st : ChatStore) (userID : String) : ChatStore :=
  st.filter (fun p => p.1 != chatKey userID)

/-! ## AI processor (`ai_processor.go`, the Redis-backed version at lines
241-676 of the file, which is the one the handlers construct) -/

/-- Payload slot of the `(string, interface{}, error)` triple the processor
returns. Field extraction done by `ParseOrderMessage` / `ParseTaskMessage`
regexes is not inspected by any claim; what matters — and is preserved
exactly — is which payload shape and which error each control path yields. -/
inductive AIResult where
  | empty : AIResult
  | orderResult : Order → List OrderItem → AIResult
  | taskResult : Task → AIResult
  | text : String → AIResult
deriving Repr, DecidableEq

/-- `aiProcessor.ExtractOrderItems`: scans for `name, qty N x P` patterns and
always returns a nil error (malformed matches are skipped with `continue`).
The regex scan itself is abstracted to the empty match list. -/
def ExtractOrderItems (_message : String) : List OrderItem := []

/-- `aiProcessor.ParseOrderMessage`: regex field extraction abstracted; the
function's only error exit is `ExtractOrderItems`, which never fails, so it
always succeeds, returning an order whose status defaults to pending. -/
def ParseOrderMessage (_message : String) : Order :=
  { emptyOrder with status := "pending" }

/-- `aiProcessor.ParseTaskMessage`: first word becomes the title, the rest the
description; never fails. -/
def ParseTaskMessage (message : String) : Task :=
  let words := goFields message
  { emptyTask with
    title := words.headD "",
    description := String.intercalate " " words.tail,
    status := Pending, priority := Medium }

/-- `aiProcessor.ProcessWhatsAppMessage` (ai_processor.go:380-408): the local
deterministic classifier. Order detection (contains "order" or "total") runs
before task detection (contains "task" or "create"); anything else yields the
tag "unknown" together with the error "unable to process message type". -/
def ProcessWhatsAppMessage (message : String) : String × AIResult × Option String :=
  let m := goToLower (goTrimSpace message)
  if goContains m "order" || goContains m "total" then
    ("order", .orderResult (ParseOrderMessage m) (ExtractOrderItems m), none)
  else if goContains m "task" || goContains m "create" then
    ("task", .taskResult (ParseTaskMessage m), none)
  else
    ("unknown", .empty, some "unable to process message type")

/-- Outcome of the HTTP round trip to the OpenAI endpoint, as seen by the
code after `client.Do`, `io.ReadAll`, `json.Unmarshal` and the choices-length
check: each failure constructor corresponds to one early-return site. -/
inductive OpenAIOutcome where
  | httpErr : String → OpenAIOutcome
  | readErr : String → OpenAIOutcome
  | jsonErr : String → OpenAIOutcome
  | noChoices : OpenAIOutcome
  | reply : String → OpenAIOutcome
deriving Repr, DecidableEq

/-- The `aiProcessor` receiver state: its configured API key. -/
structure AIProc where
  apiKey : String
deriving Repr, DecidableEq

/-- `aiProcessor.ProcessWithOpenAI` (ai_processor.go:410-612). The regex
fallback runs only when the API key is absent or the placeholder; every
transport or decode failure is returned as an error with an empty type tag
and no fallback. On a reply, the user message and the raw reply are saved to
chat memory and the reply text is coarsely tagged. The prompt assembly
(system block plus up to three prior turns) feeds the request itself, which
is abstracted into `outcome`. -/
def ProcessWithOpenAI (a : AIProc) (outcome : OpenAIOutcome) (st : ChatStore)
    (now : Nat) (message userID : String) :
    (String × AIResult × Option String) × ChatStore :=
  if a.apiKey == "" || a.apiKey == "your_openai_api_key" then
    (ProcessWhatsAppMessage message, st)
  else
    match outcome with
    | .httpErr e => (("", .empty, some e), st)
    | .readErr e => (("", .empty, some e), st)
    | .jsonErr e => (("", .empty, some e), st)
    | .noChoices => (("", .empty, some "no response from OpenAI"), st)
    | .reply content =>
      let st1 := SaveChatMessage st now userID "user" message
      let st2 := SaveChatMessage st1 now userID "assistant" content
      let cl := goToLower content
      if goContains cl "order" || goContains cl "total" then
        (("order", .text content, none), st2)
      else if goContains cl "task" || goContains cl "create" then
        (("task", .text content, none), st2)
      else
        (("unknown", .text content, none), st2)

/-! ## Handler layer: shared pieces

Handlers return the chat response, the resulting store, and the trace of
domain (service/repository) invocations they performed, so that "the
underlying domain operation is never invoked" is a statement about the
trace. -/

/-- One domain-operation invocation made by a handler. -/
inductive SvcCall where
  | getTasksByUser : Nat → SvcCall
  | getDailyTasksCall : Nat → SvcCall
  | getMonthlyTasksCall : Nat → SvcCall
  | updateTaskProgressCall : Nat → Int → Bool → String → Nat → SvcCall
  | getOrdersByUser : Nat → SvcCall
  | getOrdersByDateRange : Nat → Nat → SvcCall
  | createUserCall : String → SvcCall
  | getAllUsersCall : SvcCall
  | getAllTasksCall : SvcCall
  | getUserByUsernameCall : String → SvcCall
  | createTaskCall : String → SvcCall
  | createDailyTaskSvc : String → SvcCall
  | createMonthlyTaskSvc : String → SvcCall
  | createOrderSvc : String → Rat → SvcCall
  | getAllOrdersCall : SvcCall
deriving Repr, DecidableEq

/-- Go printf float rendering (`%.2f`, `%.0f`) abstracted to the rational's
own printing; no claim inspects a rendered number. -/
def goFmtFloat (q : Rat) : String := toString q

/-- Go `%t`. -/
def goFmtBool (b : Bool) : String := if b then "true" else "false"

/-- Go `%d` on int. -/
def goFmtInt (i : Int) : String := toString i

/-- Go `%d` on uint. -/
def goFmtNat (n : Nat) : String := toString n

/-- Go `strings.EqualFold` (ASCII case folding). -/
def goEqualFold (a b : String) : Bool := goToLower a == goToLower b

/-- `time.Parse("2006-01-02", s)`, abstracted to a `yyyymmdd` encoding that
preserves the date ordering; rejects anything that is not a
`YYYY-MM-DD`-shaped plausible date. -/
def goParseDate (s : String) : Option Nat :=
  match s.data with
  | [y1, y2, y3, y4, d1, m1, m2, d2, dd1, dd2] =>
    if d1 == '-' && d2 == '-' then
      match parseDigits 0 [y1, y2, y3, y4], parseDigits 0 [m1, m2],
            parseDigits 0 [dd1, dd2] with
      | some y, some m, some d =>
        if 1 ≤ m && m ≤ 12 && 1 ≤ d && d ≤ 31 then some (y * 10000 + m * 100 + d)
        else none
      | _, _, _ => none
    else none
  | _ => none

/-! ## Structured AI intent handlers (`whatsapp_handler.go`) -/

/-- A JSON scalar inside the classifier's `data` map. -/
inductive JValue where
  | str : String → JValue
  | num : Rat → JValue
  | boolean : Bool → JValue
deriving Repr, DecidableEq

/-- `handlers.AIResponse`: the structured classifier reply (`Type` is spelled
`rtype` because `type` is reserved). -/
structure AIResponse where
  rtype : String
  data : List (String × JValue)
  message : String
deriving Repr, DecidableEq

/-- Go type assertion `data[k].(string)`: empty string unless the key holds a
string. -/
def getStringField (d : List (String × JValue)) (k : String) : String :=
  match (d.find? (fun p => p.1 == k)).map Prod.snd with
  | some (.str s) => s
  | _ => ""

/-- Go type assertion `data[k].(float64)`: zero unless the key holds a
number. -/
def getNumField (d : List (String × JValue)) (k : String) : Rat :=
  match (d.find? (fun p => p.1 == k)).map Prod.snd with
  | some (.num q) => q
  | _ => 0

/-- Permission-denied response of the structured create-order handler. -/
def deniedCreateOrderMsg : String :=
  "❌ Anda tidak memiliki akses untuk membuat order. Hanya Admin atau Super Admin yang dapat melakukan operasi ini."

/-- Permission-denied response of the structured add-user handler. -/
def deniedAddUserMsg : String :=
  "❌ Anda tidak memiliki akses untuk menambah user. Hanya Super Admin yang dapat melakukan operasi ini."

/-- Permission-denied response of the structured assign-task handler. -/
def deniedAssignTaskMsg : String :=
  "❌ Anda tidak memiliki akses untuk menugaskan task. Hanya Admin atau Super Admin yang dapat melakukan operasi ini."

/-- `WhatsAppHandler.handleStructuredAICreateOrder`
(whatsapp_handler.go:338-369): Admin/SuperAdmin gate first, then field
extraction and validation, then `orderService.CreateOrder`. -/
def handleStructuredAICreateOrder (db : DB) (now : Nat) (user : User)
    (aiResponse : AIResponse) : String × DB × List SvcCall :=
  if user.role != Admin && user.role != SuperAdmin then
    (deniedCreateOrderMsg, db, [])
  else
    let customerName := getStringField aiResponse.data "customer_name"
    let totalAmountFloat := getNumField aiResponse.data "total_amount"
    if customerName == "" || totalAmountFloat == 0 then
      ("❌ Data tidak lengkap. Pastikan customer_name dan total_amount tersedia.", db, [])
    else
      let order := { emptyOrder with
        customerName := customerName, totalAmount := totalAmountFloat,
        status := "pending", orderDate := now, createdBy := user.id }
      match CreateOrder db now order with
      | .error e =>
        ("❌ Gagal membuat order: " ++ e, db,
         [SvcCall.createOrderSvc customerName totalAmountFloat])
      | .ok db1 =>
        ("✅ Order berhasil dibuat!\n📦 Customer: " ++ customerName
           ++ "\n💰 Total: Rp " ++ goFmtFloat totalAmountFloat
           ++ "\n📅 Tanggal: " ++ goFmtNat now, db1,
         [SvcCall.createOrderSvc customerName totalAmountFloat])

/-- Role canonicalisation loop of the structured add-user handler: the first
of SuperAdmin/Admin/User matching case-insensitively, if any. -/
def validateRole (role : String) : Option String :=
  (["SuperAdmin", "Admin", "User"].find? (fun r => goEqualFold role r))

/-- Phone normalisation `08... ↦ 628...` shared by the add-user handlers. -/
def normalizePhone (phone : String) : String :=
  if goHasPre phone "08" then "62" ++ ⟨phone.data.tail⟩ else phone

/-- `WhatsAppHandler.handleStructuredAIAddUser` (whatsapp_handler.go):
SuperAdmin gate first, then field validation, role canonicalisation, phone
normalisation and `userService.CreateUser` (which hashes a default password
and appends the row). -/
def handleStructuredAIAddUser (db : DB) (user : User) (aiResponse : AIResponse) :
    String × DB × List SvcCall :=
  if user.role != SuperAdmin then
    (deniedAddUserMsg, db, [])
  else
    let username := getStringField aiResponse.data "username"
    let email := getStringField aiResponse.data "email"
    let phone := getStringField aiResponse.data "phone"
    let role := getStringField aiResponse.data "role"
    if username == "" || email == "" || phone == "" || role == "" then
      ("❌ Data tidak lengkap. Pastikan username, email, phone, dan role tersedia.", db, [])
    else
      match validateRole role with
      | none => ("❌ Role tidak valid. Gunakan: SuperAdmin, Admin, atau User", db, [])
      | some canonicalRole =>
        let phone1 := normalizePhone phone
        let newUser : User :=
          ⟨0, username, email, phone1, canonicalRole, phone1, true⟩
        ("✅ User berhasil ditambahkan!\n👤 Username: " ++ username
           ++ "\n📧 Email: " ++ email ++ "\n📱 Phone: " ++ phone1
           ++ "\n🔑 Role: " ++ canonicalRole ++ "\n🔐 Password: default123",
         { db with users := db.users ++ [newUser] },
         [SvcCall.createUserCall username])

/-- `WhatsAppHandler.handleStructuredAIAssignTask` (whatsapp_handler.go):
Admin/SuperAdmin gate first, then field validation, username lookup and
`taskService.CreateTask`. -/
def handleStructuredAIAssignTask (db : DB) (user : User) (aiResponse : AIResponse) :
    String × DB × List SvcCall :=
  if user.role != Admin && user.role != SuperAdmin then
    (deniedAssignTaskMsg, db, [])
  else
    let title := getStringField aiResponse.data "title"
    let description := getStringField aiResponse.data "description"
    let assignedToUsername := getStringField aiResponse.data "assigned_to"
    if title == "" || description == "" || assignedToUsername == "" then
      ("❌ Data tidak lengkap. Pastikan title, description, dan assigned_to tersedia.", db, [])
    else
      match db.users.find? (fun u => u.username == assignedToUsername) with
      | none =>
        ("❌ User '" ++ assignedToUsername ++ "' tidak ditemukan. Pastikan username benar.",
         db, [SvcCall.getUserByUsernameCall assignedToUsername])
      | some assignedUser =>
        let task := { emptyTask with
          title := title, description := description,
          assignedTo := assignedUser.id, status := Pending,
          priority := Medium, taskType := CustomType, createdBy := user.id }
        ("✅ Task berhasil ditugaskan!\n📝 Title: " ++ title
           ++ "\n📄 Description: " ++ description
           ++ "\n👤 Assigned to: " ++ assignedToUsername,
         { db with tasks := db.tasks ++ [task] },
         [SvcCall.getUserByUsernameCall assignedToUsername,
          SvcCall.createTaskCall title])

/-! ## Slash-command dispatcher (`api_handler.go:290-326` and its
sub-handlers; `updateTaskProgress` is byte-identical to the copy at
`whatsapp_handler.go:857-878`) -/

/-- Status badge used by `getUserTasks`. -/
def taskStatusBadge (status : String) : String :=
  if status == InProgress then "🔄 In Progress"
  else if status == Completed then "✅ Completed"
  else "⏳ Pending"

/-- `WhatsAppHandler.getUserTasks`: read the caller's tasks and format them
(the optional due-date line is not modelled). -/
def getUserTasks (db : DB) (userID : Nat) : String × DB × List SvcCall :=
  let tasks := db.tasks.filter (fun t => t.assignedTo == userID)
  let calls := [SvcCall.getTasksByUser userID]
  if tasks.isEmpty then ("📝 No tasks assigned to you.", db, calls)
  else
    ("📝 **Your Tasks:**\n\n" ++ String.join (tasks.map (fun task =>
        "**" ++ task.title ++ "**\n"
          ++ "Status: " ++ taskStatusBadge task.status ++ "\n"
          ++ "Progress: " ++ goFmtInt task.completionPercentage ++ "%\n"
          ++ "Priority: " ++ task.priority ++ "\n\n")),
     db, calls)

/-- `WhatsAppHandler.getDailyTasks`: the repository filters on assignee and
`task_type = "daily"` (the date argument is ignored by the repository). -/
def getDailyTasks (db : DB) (userID : Nat) : String × DB × List SvcCall :=
  let tasks := db.tasks.filter (fun t => t.assignedTo == userID && t.taskType == DailyType)
  let calls := [SvcCall.getDailyTasksCall userID]
  if tasks.isEmpty then ("📅 No daily tasks for today.", db, calls)
  else
    ("📅 **Today's Daily Tasks:**\n\n" ++ String.join (tasks.map (fun task =>
        "**" ++ task.title ++ "**\n"
          ++ "Progress: " ++ goFmtInt task.completionPercentage ++ "%\n"
          ++ "Implemented: " ++ goFmtBool task.isImplemented ++ "\n\n")),
     db, calls)

/-- `WhatsAppHandler.getMonthlyTasks`: assignee and `task_type = "monthly"`. -/
def getMonthlyTasks (db : DB) (userID : Nat) : String × DB × List SvcCall :=
  let tasks := db.tasks.filter (fun t => t.assignedTo == userID && t.taskType == MonthlyType)
  let calls := [SvcCall.getMonthlyTasksCall userID]
  if tasks.isEmpty then ("📅 No monthly tasks for this month.", db, calls)
  else
    ("📅 **This Month's Tasks:**\n\n" ++ String.join (tasks.map (fun task =>
        "**" ++ task.title ++ "**\n"
          ++ "Progress: " ++ goFmtInt task.completionPercentage ++ "%\n"
          ++ "Implemented: " ++ goFmtBool task.isImplemented ++ "\n\n")),
     db, calls)

/-- `WhatsAppHandler.updateTaskProgress` (api_handler.go:500-521 and
whatsapp_handler.go:857-878): arity check, task-id parse, percentage parse
with explicit `[0,100]` bounds check, and only then the service call — with
the implemented flag hard-coded to `false` and the notes hard-coded to the
empty string. -/
def updateTaskProgress (db : DB) (now : Nat) (userID : Nat) (args : List String) :
    String × DB × List SvcCall :=
  match args with
  | arg0 :: arg1 :: _ =>
    match goParseUint32 arg0 with
    | none => ("❌ Invalid task ID", db, [])
    | some taskID =>
      match goAtoi arg1 with
      | none => ("❌ Invalid progress percentage (0-100)", db, [])
      | some progress =>
        if progress < 0 || progress > 100 then
          ("❌ Invalid progress percentage (0-100)", db, [])
        else
          ("✅ Task progress updated to " ++ goFmtInt progress ++ "%",
           UpdateTaskProgress db now taskID progress false "" userID,
           [SvcCall.updateTaskProgressCall taskID progress false "" userID])
  | _ => ("❌ Usage: /update_progress [task_id] [percentage]", db, [])

/-- `WhatsAppHandler.markTaskComplete`: update-progress sugar with
percentage 100, implemented true and fixed notes. -/
def markTaskComplete (db : DB) (now : Nat) (userID : Nat) (args : List String) :
    String × DB × List SvcCall :=
  match args with
  | arg0 :: _ =>
    match goParseUint32 arg0 with
    | none => ("❌ Invalid task ID", db, [])
    | some taskID =>
      ("✅ Task marked as implemented",
       UpdateTaskProgress db now taskID 100 true "Task completed" userID,
       [SvcCall.updateTaskProgressCall taskID 100 true "Task completed" userID])
  | _ => ("❌ Usage: /mark_complete [task_id]", db, [])

/-- `WhatsAppHandler.getUserOrders`: the caller's own orders. -/
def getUserOrders (db : DB) (userID : Nat) : String × DB × List SvcCall :=
  let orders := db.orders.filter (fun o => o.createdBy == userID)
  let calls := [SvcCall.getOrdersByUser userID]
  if orders.isEmpty then ("📦 No orders found.", db, calls)
  else
    ("📦 **Your Orders:**\n\n" ++ String.join (orders.map (fun order =>
        "**Order #" ++ order.orderNumber ++ "**\n"
          ++ "Customer: " ++ order.customerName ++ "\n"
          ++ "Total: $" ++ goFmtFloat order.totalAmount ++ "\n"
          ++ "Status: " ++ order.status ++ "\n"
          ++ "Date: " ++ goFmtNat order.orderDate ++ "\n\n")),
     db, calls)

/-- `WhatsAppHandler.getUserReport`: a placeholder response. -/
def getUserReport (_db : DB) (_userID : Nat) : String :=
  "📊 **Your Personal Report:**\n\nThis feature will show your personal financial summary."

/-- `WhatsAppHandler.getReportByDate`: date-range order aggregation. -/
def getReportByDate (db : DB) (_userID : Nat) (args : List String) :
    String × DB × List SvcCall :=
  if args.length < 2 then
    ("❌ Usage: /report_by_date [start_date] [end_date] (format: YYYY-MM-DD)", db, [])
  else
    match goParseDate (args.getD 0 "") with
    | none => ("❌ Invalid start date format. Use YYYY-MM-DD", db, [])
    | some startDate =>
      match goParseDate (args.getD 1 "") with
      | none => ("❌ Invalid end date format. Use YYYY-MM-DD", db, [])
      | some endDate =>
        let orders := db.orders.filter (fun o =>
          startDate ≤ o.orderDate && o.orderDate ≤ endDate)
        let calls := [SvcCall.getOrdersByDateRange startDate endDate]
        if orders.isEmpty then
          ("📊 No orders found for the specified date range.", db, calls)
        else
          let totalAmount := orders.foldl (fun acc o => acc + o.totalAmount) 0
          ("📊 **Report for " ++ args.getD 0 "" ++ " to " ++ args.getD 1 "" ++ ":**\n\n"
             ++ "Total Orders: " ++ goFmtNat orders.length ++ "\n"
             ++ "Total Amount: $" ++ goFmtFloat totalAmount ++ "\n",
           db, calls)

/-- `WhatsAppHandler.addUser` (admin slash command; no further role check
inside). -/
def addUser (db : DB) (_user : User) (args : List String) :
    String × DB × List SvcCall :=
  if args.length < 4 then
    ("❌ Usage: /add_user [username] [email] [phone] [role]", db, [])
  else
    let newUser : User :=
      ⟨0, args.getD 0 "", args.getD 1 "", args.getD 2 "", args.getD 3 "",
       args.getD 2 "", true⟩
    ("✅ User created successfully",
     { db with users := db.users ++ [newUser] },
     [SvcCall.createUserCall (args.getD 0 "")])

/-- `WhatsAppHandler.listUsers`. -/
def listUsers (db : DB) : String × DB × List SvcCall :=
  ("👥 **All Users:**\n\n" ++ String.join (db.users.map (fun user =>
      "**ID: " ++ goFmtNat user.id ++ "** - **" ++ user.username ++ "** ("
        ++ user.email ++ ")\n"
        ++ "Role: " ++ user.role ++ "\n"
        ++ "Status: " ++ (if user.isActive then "✅ Active" else "❌ Inactive") ++ "\n\n")),
   db, [SvcCall.getAllUsersCall])

/-- `WhatsAppHandler.listAllTasks` (the per-task badge lines are rendered in
a simplified but information-preserving form). -/
def listAllTasks (db : DB) : String × DB × List SvcCall :=
  let calls := [SvcCall.getAllTasksCall]
  if db.tasks.isEmpty then ("📝 **All Tasks:**\n\nNo tasks found.", db, calls)
  else
    ("📝 **All Tasks:**\n\n" ++ String.join (db.tasks.map (fun task =>
        "**ID: " ++ goFmtNat task.id ++ "** - **" ++ task.title ++ "**\n"
          ++ "Description: " ++ task.description ++ "\n"
          ++ "Assigned To: User ID " ++ goFmtNat task.assignedTo ++ "\n"
          ++ "Status: " ++ task.status ++ "\n"
          ++ "Priority: " ++ task.priority ++ "\n"
          ++ "Progress: " ++ goFmtInt task.completionPercentage ++ "%\n"
          ++ "Implemented: " ++ goFmtBool task.isImplemented ++ "\n\n")),
     db, calls)

/-- `WhatsAppHandler.createOrder` (admin slash command): parse the amount,
then `orderService.CreateOrder` (which derives financials first). -/
def createOrder (db : DB) (now : Nat) (userID : Nat) (args : List String) :
    String × DB × List SvcCall :=
  if args.length < 2 then
    ("❌ Usage: /create_order [customer_name] [total_amount]", db, [])
  else
    match goParseFloat (args.getD 1 "") with
    | none => ("❌ Invalid total amount", db, [])
    | some totalAmount =>
      let order := { emptyOrder with
        orderNumber := "ORD-" ++ goFmtNat now,
        customerName := args.getD 0 "", totalAmount := totalAmount,
        status := OrderPending, orderDate := now, createdBy := userID }
      let calls := [SvcCall.createOrderSvc (args.getD 0 "") totalAmount]
      match CreateOrder db now order with
      | .error e => ("❌ Failed to create order: " ++ e, db, calls)
      | .ok db1 =>
        ("✅ Order created successfully\nOrder #: " ++ order.orderNumber
           ++ "\nCustomer: " ++ order.customerName
           ++ "\nTotal: $" ++ goFmtFloat order.totalAmount, db1, calls)

/-- `WhatsAppHandler.getAllOrders`. -/
def getAllOrders (db : DB) : String × DB × List SvcCall :=
  let calls := [SvcCall.getAllOrdersCall]
  if db.orders.isEmpty then ("📦 No orders found.", db, calls)
  else
    ("📦 **All Orders:**\n\n" ++ String.join (db.orders.map (fun order =>
        "**Order #" ++ order.orderNumber ++ "**\n"
          ++ "Customer: " ++ order.customerName ++ "\n"
          ++ "Total: $" ++ goFmtFloat order.totalAmount ++ "\n"
          ++ "Status: " ++ order.status ++ "\n"
          ++ "Date: " ++ goFmtNat order.orderDate ++ "\n\n")),
     db, calls)

/-- User-or-ID resolution shared by the task-creation commands: numeric ID
first, then username lookup; the lookup, when taken, is a domain call. -/
def resolveAssignee (db : DB) (token : String) :
    Except String (Nat × List SvcCall) :=
  match goParseUint32 token with
  | some uid => .ok (uid, [])
  | none =>
    match db.users.find? (fun u => u.username == token) with
    | some u => .ok (u.id, [SvcCall.getUserByUsernameCall token])
    | none => .error token

/-- `WhatsAppHandler.assignTask`. -/
def assignTask (db : DB) (userID : Nat) (args : List String) :
    String × DB × List SvcCall :=
  if args.length < 3 then
    ("❌ Usage: /assign_task [username_or_id] [title] [description]", db, [])
  else
    match resolveAssignee db (args.getD 0 "") with
    | .error token =>
      ("❌ User not found: " ++ token, db, [SvcCall.getUserByUsernameCall token])
    | .ok (assignedTo, calls0) =>
      let task := { emptyTask with
        title := args.getD 1 "", description := args.getD 2 "",
        assignedTo := assignedTo, status := Pending, priority := Medium,
        taskType := CustomType, createdBy := userID }
      ("✅ Task assigned successfully",
       { db with tasks := db.tasks ++ [task] },
       calls0 ++ [SvcCall.createTaskCall (args.getD 1 "")])

/-- `WhatsAppHandler.createDailyTask`: `taskService.CreateDailyTask` stamps
type daily and recurrence before the repository append. -/
def createDailyTask (db : DB) (userID : Nat) (args : List String) :
    String × DB × List SvcCall :=
  if args.length < 3 then
    ("❌ Usage: /create_daily_task [username_or_id] [title] [description]", db, [])
  else
    match resolveAssignee db (args.getD 0 "") with
    | .error token =>
      ("❌ User not found: " ++ token, db, [SvcCall.getUserByUsernameCall token])
    | .ok (assignedTo, calls0) =>
      let task := { emptyTask with
        title := args.getD 1 "", description := args.getD 2 "",
        assignedTo := assignedTo, status := Pending, priority := Medium,
        taskType := DailyType, isRecurring := true, recurringPattern := "daily",
        createdBy := userID }
      ("✅ Daily task created successfully",
       { db with tasks := db.tasks ++ [task] },
       calls0 ++ [SvcCall.createDailyTaskSvc (args.getD 1 "")])

/-- `WhatsAppHandler.createMonthlyTask`. -/
def createMonthlyTask (db : DB) (userID : Nat) (args : List String) :
    String × DB × List SvcCall :=
  if args.length < 3 then
    ("❌ Usage: /create_monthly_task [username_or_id] [title] [description]", db, [])
  else
    match resolveAssignee db (args.getD 0 "") with
    | .error token =>
      ("❌ User not found: " ++ token, db, [SvcCall.getUserByUsernameCall token])
    | .ok (assignedTo, calls0) =>
      let task := { emptyTask with
        title := args.getD 1 "", description := args.getD 2 "",
        assignedTo := assignedTo, status := Pending, priority := Medium,
        taskType := MonthlyType, isRecurring := true, recurringPattern := "monthly",
        createdBy := userID }
      ("✅ Monthly task created successfully",
       { db with tasks := db.tasks ++ [task] },
       calls0 ++ [SvcCall.createMonthlyTaskSvc (args.getD 1 "")])

/-- `WhatsAppHandler.setTaxRate`: in this dispatcher the body only validates
and formats — no repository is reached (the comment in the source reads
"Implementation for setting tax rate"). -/
def setTaxRate (db : DB) (_userID : Nat) (args : List String) :
    String × DB × List SvcCall :=
  if args.length < 1 then ("❌ Usage: /set_tax_rate [percentage]", db, [])
  else
    match goParseFloat (args.getD 0 "") with
    | none => ("❌ Invalid percentage", db, [])
    | some percentage => ("✅ Tax rate set to " ++ goFmtFloat percentage ++ "%", db, [])

/-- `WhatsAppHandler.setMarketingRate`. -/
def setMarketingRate (db : DB) (_userID : Nat) (args : List String) :
    String × DB × List SvcCall :=
  if args.length < 1 then ("❌ Usage: /set_marketing_rate [percentage]", db, [])
  else
    match goParseFloat (args.getD 0 "") with
    | none => ("❌ Invalid percentage", db, [])
    | some percentage => ("✅ Marketing rate set to " ++ goFmtFloat percentage ++ "%", db, [])

/-- `WhatsAppHandler.setRentalRate`. -/
def setRentalRate (db : DB) (_userID : Nat) (args : List String) :
    String × DB × List SvcCall :=
  if args.length < 1 then ("❌ Usage: /set_rental_rate [percentage]", db, [])
  else
    match goParseFloat (args.getD 0 "") with
    | none => ("❌ Invalid percentage", db, [])
    | some percentage => ("✅ Rental rate set to " ++ goFmtFloat percentage ++ "%", db, [])

/-- `WhatsAppHandler.generateReport`. -/
def generateReport : String :=
  "📊 **Financial Report:**\n\nThis feature will show comprehensive financial summary."

/-- `WhatsAppHandler.generateDailyReport`. -/
def generateDailyReport : String :=
  "📊 **Daily Report:**\n\nThis feature will show today's financial summary."

/-- `WhatsAppHandler.generateMonthlyReport`. -/
def generateMonthlyReport : String :=
  "📊 **Monthly Report:**\n\nThis feature will show this month's financial summary."

/-- `WhatsAppHandler.getHelpMessage`: the command list for the caller's role
(the literal help text is abbreviated to its headers; no claim reads it). -/
def getHelpMessage (role : String) : String :=
  let baseCommands := "📱 **Available Commands:**\n\n**General Commands:**\n"
  if role == Admin then baseCommands ++ "**Admin Commands:**\n"
  else if role == SuperAdmin then
    baseCommands ++ "**Super Admin Commands:**\n**Admin Commands:**\n"
  else baseCommands

/-- `WhatsAppHandler.processAdminCommand` (api_handler.go:328-361): the
admin-command switch, reached only after the role gate in
`processCommand`. -/
def processAdminCommand (db : DB) (now : Nat) (user : User) (command : String)
    (args : List String) : String × DB × List SvcCall :=
  match command with
  | "/add_user" => addUser db user args
  | "/list_users" => listUsers db
  | "/list_tasks" => listAllTasks db
  | "/create_order" => createOrder db now user.id args
  | "/view_orders" => getAllOrders db
  | "/assign_task" => assignTask db user.id args
  | "/create_daily_task" => createDailyTask db user.id args
  | "/create_monthly_task" => createMonthlyTask db user.id args
  | "/set_tax_rate" => setTaxRate db user.id args
  | "/set_marketing_rate" => setMarketingRate db user.id args
  | "/set_rental_rate" => setRentalRate db user.id args
  | "/generate_report" => (generateReport, db, [])
  | "/daily_report" => (generateDailyReport, db, [])
  | "/monthly_report" => (generateMonthlyReport, db, [])
  | _ => ("❌ Unknown admin command. Type /help for available commands.", db, [])

/-- Response of `processCommand` when a non-admin caller sends a command
outside the user-level switch. -/
def unknownCommandMsg : String :=
  "❌ Unknown command. Type /help for available commands."

/-- The command switch of `WhatsAppHandler.processCommand`
(api_handler.go:290-326), after the message has been split into command and
arguments. Commands outside the user-level set reach `processAdminCommand`
only when the caller's role is Admin or SuperAdmin. -/
def dispatchCommand (db : DB) (now : Nat) (user : User) (command : String)
    (args : List String) : String × DB × List SvcCall :=
  match command with
  | "/help" => (getHelpMessage user.role, db, [])
  | "/my_tasks" => getUserTasks db user.id
  | "/my_daily_tasks" => getDailyTasks db user.id
  | "/my_monthly_tasks" => getMonthlyTasks db user.id
  | "/update_progress" => updateTaskProgress db now user.id args
  | "/mark_complete" => markTaskComplete db now user.id args
  | "/view_orders" => getUserOrders db user.id
  | "/my_report" => (getUserReport db user.id, db, [])
  | "/report_by_date" => getReportByDate db user.id args
  | _ =>
    if user.role == Admin || user.role == SuperAdmin then
      processAdminCommand db now user command args
    else (unknownCommandMsg, db, [])

/-- `WhatsAppHandler.processCommand` (api_handler.go:290-326):
`strings.Fields`, then the command switch. -/
def processCommand (db : DB) (now : Nat) (user : User) (message : String) :
    String × DB × List SvcCall :=
  match goFields message with
  | [] => ("❌ Invalid command. Type /help for available commands.", db, [])
  | command :: args => dispatchCommand db now user command args

/-! ## Concrete fixtures used by witnesses and counterexamples -/

/-- An active tax-rate row at 10%. -/
def taxRow : FinancialSettings := ⟨"tax_rate", 10, 0, true, true, 1⟩

/-- An active marketing-rate row at 5%. -/
def marketingRow : FinancialSettings := ⟨"marketing_rate", 5, 0, true, true, 1⟩

/-- An active rental-rate row at 2%. -/
def rentalRow : FinancialSettings := ⟨"rental_rate", 2, 0, true, true, 1⟩

/-- A store holding only the three rate rows. -/
def ratesDB : DB := ⟨[], [], [], [], [], [taxRow, marketingRow, rentalRow], []⟩

/-- A store with no rows at all. -/
def emptyDB : DB := ⟨[], [], [], [], [], [], []⟩

/-- A fresh order over Rp 1000 for John. -/
def sampleOrder : Order :=
  { emptyOrder with id := 7, customerName := "John", totalAmount := 1000 }

/-- The rate store together with a previously persisted copy of order 7
whose derived figures are stale. -/
def staleOrderDB : DB :=
  { ratesDB with orders :=
      [{ emptyOrder with
         id := 7, customerName := "John", totalAmount := 500, netProfit := 123 }] }

/-- A store holding one persisted order with id 1 and no items. -/
def oneOrderDB : DB :=
  ⟨[], [], [], [{ emptyOrder with id := 1, orderNumber := "ORD-1", customerName := "Jane" }],
   [], [], []⟩

/-- A store holding one task (id 1) whose implemented flag is set and whose
notes are non-empty. -/
def implementedTaskDB : DB :=
  ⟨[], [{ emptyTask with
          id := 1, title := "Deploy", assignedTo := 2, status := "pending",
          completionPercentage := 100, isImplemented := true,
          implementationNotes := "done and shipped" }],
   [], [], [], [], []⟩

/-- A regular (User-role) caller. -/
def regularUser : User := ⟨3, "udin", "udin@example.com", "628111", Users, "628111", true⟩

/-- Three conversation turns, newest first. -/
def turnA : ChatMessage := ⟨"assistant", "reply two", 40⟩

/-- Second stored turn. -/
def turnB : ChatMessage := ⟨"user", "question two", 39⟩

/-- Third (oldest) stored turn. -/
def turnC : ChatMessage := ⟨"assistant", "reply one", 30⟩

/-- A chat store whose ring for user 7 is full (three live turns, expiry at
tick 640). -/
def fullRingStore : ChatStore :=
  [(chatKey "7", ⟨[turnA, turnB, turnC], some 640⟩)]

/-- The slash commands of `processCommand` that are reachable only through
`processAdminCommand` (every command of its switch), i.e. the Admin-only or
SuperAdmin-only intents of the dispatcher. -/
def adminOnlyCommands : List String :=
  ["/add_user", "/list_users", "/list_tasks", "/create_order", "/assign_task",
   "/create_daily_task", "/create_monthly_task", "/set_tax_rate",
   "/set_marketing_rate", "/set_rental_rate", "/generate_report",
   "/daily_report", "/monthly_report"]

/-! ## Theorems -/

/-- C1: for every order with gross amount `g ≥ 0` and fetched rate triple
`(t, m, r) ≥ 0`, `CalculateFinancials` sets `taxAmount = g*t/100`,
`marketingCost = g*m/100`, `rentalCost = g*r/100` and
`netProfit = g - g*t/100 - g*m/100 - g*r/100` exactly, and appends one
`CalculationHistory` row whose `calculatedAmount` equals that net profit and
whose `percentageUsed` equals `t + m + r`. -/
theorem C1_financial_derivation_exact (db : DB) (now : Nat) (order : Order)
    (ts ms rs : FinancialSettings)
    (htax : GetSettings db "tax_rate" = .ok ts)
    (hmk : GetSettings db "marketing_rate" = .ok ms)
    (hrent : GetSettings db "rental_rate" = .ok rs)
    (hg : 0 ≤ order.totalAmount) (ht : 0 ≤ ts.percentageValue)
    (hm : 0 ≤ ms.percentageValue) (hr : 0 ≤ rs.percentageValue) :
    ∃ o db1, CalculateFinancials db now order = .ok (o, db1) ∧
      o.taxAmount = order.totalAmount * ts.percentageValue / 100 ∧
      o.marketingCost = order.totalAmount * ms.percentageValue / 100 ∧
      o.rentalCost = order.totalAmount * rs.percentageValue / 100 ∧
      o.netProfit = order.totalAmount - order.totalAmount * ts.percentageValue / 100
        - order.totalAmount * ms.percentageValue / 100
        - order.totalAmount * rs.percentageValue / 100 ∧
      db1.calculationHistory = db.calculationHistory ++
        [⟨order.id, "net_profit", order.totalAmount,
          ts.percentageValue + ms.percentageValue + rs.percentageValue,
          o.netProfit, now⟩] := by
  unfold CalculateFinancials
  rw [htax, hmk, hrent]
  refine ⟨_, _, rfl, ?_, ?_, ?_, ?_, rfl⟩
  · exact (mul_div_assoc _ _ _).symm
  · exact (mul_div_assoc _ _ _).symm
  · exact (mul_div_assoc _ _ _).symm
  · simp only [mul_div_assoc]

/-- Witness for C1 at a concrete store and order. -/
theorem C1_financial_derivation_exact_witness :
    (GetSettings ratesDB "tax_rate" = .ok taxRow ∧
       GetSettings ratesDB "marketing_rate" = .ok marketingRow ∧
       GetSettings ratesDB "rental_rate" = .ok rentalRow ∧
       0 ≤ sampleOrder.totalAmount ∧ 0 ≤ taxRow.percentageValue ∧
       0 ≤ marketingRow.percentageValue ∧ 0 ≤ rentalRow.percentageValue) ∧
    (∃ o db1, CalculateFinancials ratesDB 5 sampleOrder = .ok (o, db1) ∧
      o.taxAmount = sampleOrder.totalAmount * taxRow.percentageValue / 100 ∧
      o.marketingCost = sampleOrder.totalAmount * marketingRow.percentageValue / 100 ∧
      o.rentalCost = sampleOrder.totalAmount * rentalRow.percentageValue / 100 ∧
      o.netProfit = sampleOrder.totalAmount
        - sampleOrder.totalAmount * taxRow.percentageValue / 100
        - sampleOrder.totalAmount * marketingRow.percentageValue / 100
        - sampleOrder.totalAmount * rentalRow.percentageValue / 100 ∧
      db1.calculationHistory = ratesDB.calculationHistory ++
        [⟨sampleOrder.id, "net_profit", sampleOrder.totalAmount,
          taxRow.percentageValue + marketingRow.percentageValue
            + rentalRow.percentageValue,
          o.netProfit, 5⟩]) :=
  ⟨⟨rfl, rfl, rfl, by decide, by decide, by decide, by decide⟩,
   C1_financial_derivation_exact ratesDB 5 sampleOrder taxRow marketingRow rentalRow
     rfl rfl rfl (by decide) (by decide) (by decide) (by decide)⟩

/-- Elimination principle for a successful derivation run: the three rate
fetches succeeded and the outputs are exactly the derived order and the
appended history row. -/
theorem CalculateFinancials_ok_elim (db : DB) (now : Nat) (order o : Order) (dbh : DB)
    (h : CalculateFinancials db now order = .ok (o, dbh)) :
    ∃ ts ms rs, GetSettings db "tax_rate" = .ok ts ∧
      GetSettings db "marketing_rate" = .ok ms ∧
      GetSettings db "rental_rate" = .ok rs ∧
      o = { order with
        taxPercentage := ts.percentageValue,
        taxAmount := order.totalAmount * (ts.percentageValue / 100),
        marketingPercentage := ms.percentageValue,
        marketingCost := order.totalAmount * (ms.percentageValue / 100),
        rentalPercentage := rs.percentageValue,
        rentalCost := order.totalAmount * (rs.percentageValue / 100),
        netProfit := order.totalAmount - order.totalAmount * (ts.percentageValue / 100)
          - order.totalAmount * (ms.percentageValue / 100)
          - order.totalAmount * (rs.percentageValue / 100),
        calculationTimestamp := now } ∧
      dbh = CreateCalculationHistory db
        ⟨order.id, "net_profit", order.totalAmount,
         ts.percentageValue + ms.percentageValue + rs.percentageValue,
         o.netProfit, now⟩ := by
  unfold CalculateFinancials at h
  cases hts : GetSettings db "tax_rate" with
  | error e => rw [hts] at h; simp at h
  | ok ts =>
    cases hms : GetSettings db "marketing_rate" with
    | error e => rw [hts, hms] at h; simp at h
    | ok ms =>
      cases hrs : GetSettings db "rental_rate" with
      | error e => rw [hts, hms, hrs] at h; simp at h
      | ok rs =>
        rw [hts, hms, hrs] at h
        simp only [Except.ok.injEq, Prod.mk.injEq] at h
        obtain ⟨ho, hdb⟩ := h
        exact ⟨ts, ms, rs, rfl, rfl, rfl, ho.symm, by rw [← ho]; exact hdb.symm⟩

/-- C2: for every order creation or update, the financial derivation runs
before the order is persisted; if fetching any of the three rates fails the
whole operation aborts with a wrapped error naming the unavailable rate and
nothing is written (in the source all three fetches precede the first
derived-field write); and a persisted order always carries the figures
freshly derived from the fetched rates, together with exactly one new
history row — on the update path, every stored row with the updated order's
id is the freshly derived one, so an update can never leave stale derived
figures behind. -/
theorem C2_derive_before_persist :
    (∀ db now order e, GetSettings db "tax_rate" = .error e →
       CreateOrder db now order = .error ("failed to get tax settings: " ++ e) ∧
       UpdateOrder db now order = .error ("failed to get tax settings: " ++ e)) ∧
    (∀ db now order ts e, GetSettings db "tax_rate" = .ok ts →
       GetSettings db "marketing_rate" = .error e →
       CreateOrder db now order = .error ("failed to get marketing settings: " ++ e) ∧
       UpdateOrder db now order = .error ("failed to get marketing settings: " ++ e)) ∧
    (∀ db now order ts ms e, GetSettings db "tax_rate" = .ok ts →
       GetSettings db "marketing_rate" = .ok ms →
       GetSettings db "rental_rate" = .error e →
       CreateOrder db now order = .error ("failed to get rental settings: " ++ e) ∧
       UpdateOrder db now order = .error ("failed to get rental settings: " ++ e)) ∧
    (∀ db now order db1, CreateOrder db now order = .ok db1 →
       ∃ o, db1.orders = db.orders ++ [o] ∧
         o.calculationTimestamp = now ∧
         o.netProfit = o.totalAmount - o.taxAmount - o.marketingCost - o.rentalCost ∧
         (∃ ts, GetSettings db "tax_rate" = .ok ts ∧
            o.taxPercentage = ts.percentageValue ∧
            o.taxAmount = o.totalAmount * (ts.percentageValue / 100)) ∧
         (∃ ms, GetSettings db "marketing_rate" = .ok ms ∧
            o.marketingPercentage = ms.percentageValue ∧
            o.marketingCost = o.totalAmount * (ms.percentageValue / 100)) ∧
         (∃ rs, GetSettings db "rental_rate" = .ok rs ∧
            o.rentalPercentage = rs.percentageValue ∧
            o.rentalCost = o.totalAmount * (rs.percentageValue / 100)) ∧
         db1.calculationHistory.length = db.calculationHistory.length + 1) ∧
    (∀ db now order db1, UpdateOrder db now order = .ok db1 →
       ∃ o, o.id = order.id ∧ o ∈ db1.orders ∧
         (∀ x ∈ db1.orders, x.id = order.id → x = o) ∧
         o.calculationTimestamp = now ∧
         o.netProfit = o.totalAmount - o.taxAmount - o.marketingCost - o.rentalCost ∧
         (∃ ts, GetSettings db "tax_rate" = .ok ts ∧
            o.taxPercentage = ts.percentageValue ∧
            o.taxAmount = o.totalAmount * (ts.percentageValue / 100)) ∧
         (∃ ms, GetSettings db "marketing_rate" = .ok ms ∧
            o.marketingPercentage = ms.percentageValue ∧
            o.marketingCost = o.totalAmount * (ms.percentageValue / 100)) ∧
         (∃ rs, GetSettings db "rental_rate" = .ok rs ∧
            o.rentalPercentage = rs.percentageValue ∧
            o.rentalCost = o.totalAmount * (rs.percentageValue / 100)) ∧
         db1.calculationHistory.length = db.calculationHistory.length + 1) := by
  refine ⟨?_, ?_, ?_, ?_, ?_⟩
  · intro db now order e h
    refine ⟨?_, ?_⟩
    · unfold CreateOrder CalculateFinancials; rw [h]
    · unfold UpdateOrder CalculateFinancials; rw [h]
  · intro db now order ts e h1 h2
    refine ⟨?_, ?_⟩
    · unfold CreateOrder CalculateFinancials; rw [h1, h2]
    · unfold UpdateOrder CalculateFinancials; rw [h1, h2]
  · intro db now order ts ms e h1 h2 h3
    refine ⟨?_, ?_⟩
    · unfold CreateOrder CalculateFinancials; rw [h1, h2, h3]
    · unfold UpdateOrder CalculateFinancials; rw [h1, h2, h3]
  · intro db now order db1 h
    unfold CreateOrder at h
    cases hc : CalculateFinancials db now order with
    | error e => rw [hc] at h; simp at h
    | ok p =>
      obtain ⟨o, dbh⟩ := p
      rw [hc] at h
      simp only [Except.ok.injEq] at h
      obtain ⟨ts, ms, rs, hts, hms, hrs, ho, hdb⟩ :=
        CalculateFinancials_ok_elim db now order o dbh hc
      subst ho hdb
      subst h
      exact ⟨_, rfl, rfl, rfl, ⟨ts, hts, rfl, rfl⟩, ⟨ms, hms, rfl, rfl⟩,
        ⟨rs, hrs, rfl, rfl⟩, by simp [CreateCalculationHistory]⟩
  · intro db now order db1 h
    unfold UpdateOrder at h
    cases hc : CalculateFinancials db now order with
    | error e => rw [hc] at h; simp at h
    | ok p =>
      obtain ⟨o, dbh⟩ := p
      rw [hc] at h
      simp only [Except.ok.injEq] at h
      obtain ⟨ts, ms, rs, hts, hms, hrs, ho, hdb⟩ :=
        CalculateFinancials_ok_elim db now order o dbh hc
      refine ⟨o, ?_, ?_, ?_, ?_, ?_, ⟨ts, hts, ?_, ?_⟩, ⟨ms, hms, ?_, ?_⟩,
        ⟨rs, hrs, ?_, ?_⟩, ?_⟩
      · rw [ho]
      · subst h hdb
        simp only [CreateCalculationHistory]
        by_cases hany : db.orders.any (fun x => x.id == o.id)
        · rw [if_pos hany]
          obtain ⟨x, hx, hxid⟩ := List.any_eq_true.mp hany
          exact List.mem_map.mpr ⟨x, hx, by simp [hxid]⟩
        · rw [if_neg hany]
          exact List.mem_append_right _ (List.mem_singleton.mpr rfl)
      · intro x hx hxid
        subst h hdb
        simp only [CreateCalculationHistory] at hx
        by_cases hany : db.orders.any (fun y => y.id == o.id)
        · rw [if_pos hany] at hx
          obtain ⟨s, hs, rfl⟩ := List.mem_map.mp hx
          by_cases hsid : (s.id == o.id) = true
          · rw [if_pos hsid]
          · rw [if_neg hsid] at hxid ⊢
            have hso : s.id = o.id := by rw [ho]; exact hxid
            exact absurd hso (by simpa using hsid)
        · rw [if_neg hany] at hx
          rcases List.mem_append.mp hx with hmem | hmem
          · have hall : ∀ y ∈ db.orders, ¬ y.id = o.id := by simpa using hany
            have hxo : x.id = o.id := by rw [ho]; exact hxid
            exact absurd hxo (hall x hmem)
          · exact List.mem_singleton.mp hmem
      · rw [ho]
      · rw [ho]
      · rw [ho]
      · rw [ho]
      · rw [ho]
      · rw [ho]
      · rw [ho]
      · rw [ho]
      · subst h hdb
        simp [CreateCalculationHistory]

/-- Witness for C2: a failing fetch (empty store), a successful creation
against the concrete rate store, and a successful update that replaces the
stale persisted copy of order 7. -/
theorem C2_derive_before_persist_witness :
    (GetSettings emptyDB "tax_rate" = .error "record not found" ∧
       CreateOrder emptyDB 5 sampleOrder
         = .error ("failed to get tax settings: " ++ "record not found") ∧
       UpdateOrder emptyDB 5 sampleOrder
         = .error ("failed to get tax settings: " ++ "record not found")) ∧
    (∃ db1, CreateOrder ratesDB 5 sampleOrder = .ok db1 ∧
       ∃ o, db1.orders = ratesDB.orders ++ [o] ∧
         o.calculationTimestamp = 5 ∧
         o.netProfit = o.totalAmount - o.taxAmount - o.marketingCost - o.rentalCost ∧
         (∃ ts, GetSettings ratesDB "tax_rate" = .ok ts ∧
            o.taxPercentage = ts.percentageValue ∧
            o.taxAmount = o.totalAmount * (ts.percentageValue / 100)) ∧
         (∃ ms, GetSettings ratesDB "marketing_rate" = .ok ms ∧
            o.marketingPercentage = ms.percentageValue ∧
            o.marketingCost = o.totalAmount * (ms.percentageValue / 100)) ∧
         (∃ rs, GetSettings ratesDB "rental_rate" = .ok rs ∧
            o.rentalPercentage = rs.percentageValue ∧
            o.rentalCost = o.totalAmount * (rs.percentageValue / 100)) ∧
         db1.calculationHistory.length = ratesDB.calculationHistory.length + 1) ∧
    (∃ db1, UpdateOrder staleOrderDB 5 sampleOrder = .ok db1 ∧
       ∃ o, o.id = sampleOrder.id ∧ o ∈ db1.orders ∧
         (∀ x ∈ db1.orders, x.id = sampleOrder.id → x = o) ∧
         o.calculationTimestamp = 5 ∧
         o.netProfit = o.totalAmount - o.taxAmount - o.marketingCost - o.rentalCost ∧
         (∃ ts, GetSettings staleOrderDB "tax_rate" = .ok ts ∧
            o.taxPercentage = ts.percentageValue ∧
            o.taxAmount = o.totalAmount * (ts.percentageValue / 100)) ∧
         (∃ ms, GetSettings staleOrderDB "marketing_rate" = .ok ms ∧
            o.marketingPercentage = ms.percentageValue ∧
            o.marketingCost = o.totalAmount * (ms.percentageValue / 100)) ∧
         (∃ rs, GetSettings staleOrderDB "rental_rate" = .ok rs ∧
            o.rentalPercentage = rs.percentageValue ∧
            o.rentalCost = o.totalAmount * (rs.percentageValue / 100)) ∧
         db1.calculationHistory.length = staleOrderDB.calculationHistory.length + 1) :=
  ⟨⟨rfl, (C2_derive_before_persist.1 emptyDB 5 sampleOrder "record not found" rfl).1,
    (C2_derive_before_persist.1 emptyDB 5 sampleOrder "record not found" rfl).2⟩,
   ⟨_, rfl, (C2_derive_before_persist.2.2.2.1) ratesDB 5 sampleOrder _ rfl⟩,
   ⟨_, rfl, (C2_derive_before_persist.2.2.2.2) staleOrderDB 5 sampleOrder _ rfl⟩⟩

/-- Reading a key just written returns the value written. -/
theorem storeGet_storeSet (st : ChatStore) (key : String) (l : RedisList) :
    storeGet (storeSet st key l) key = l := by
  induction st with
  | nil => simp [storeSet, storeGet]
  | cons p st ih =>
    by_cases h : p.1 == key
    · simp [storeSet, storeGet, h]
    · simp only [storeSet, h, Bool.false_eq_true, if_false]
      simpa [storeGet, List.find?, h] using ih

/-- C5: the per-user conversation ring never exceeds 3 turns after an append,
appending to a full ring evicts the oldest stored turn, and every append
resets the expiry so that a read 10 minutes or more after the last write
returns empty. -/
theorem C5_chat_ring_bound_and_expiry :
    (∀ st now userID role content,
       (storeGet (SaveChatMessage st now userID role content) (chatKey userID)).items.length ≤ 3 ∧
       (GetChatHistory (SaveChatMessage st now userID role content) now userID).length ≤ 3) ∧
    (∀ st now userID role content a b c rest,
       liveItems (storeGet st (chatKey userID)) now = a :: b :: c :: rest →
       (storeGet (SaveChatMessage st now userID role content) (chatKey userID)).items
         = [⟨role, content, now⟩, a, b]) ∧
    (∀ st now userID role content t, now + 600 ≤ t →
       GetChatHistory (SaveChatMessage st now userID role content) t userID = []) := by
  refine ⟨?_, ?_, ?_⟩
  · intro st now userID role content
    constructor
    · rw [SaveChatMessage, storeGet_storeSet]
      exact List.length_take_le 3 _
    · rw [GetChatHistory, SaveChatMessage, storeGet_storeSet]
      exact List.length_take_le 3 _
  · intro st now userID role content a b c rest h
    rw [SaveChatMessage, storeGet_storeSet, h]
    rfl
  · intro st now userID role content t ht
    rw [GetChatHistory, SaveChatMessage, storeGet_storeSet]
    simp [liveItems, Nat.not_lt.mpr ht]

/-- Witness for C5 on a full concrete ring. -/
theorem C5_chat_ring_bound_and_expiry_witness :
    ((storeGet (SaveChatMessage fullRingStore 41 "7" "user" "question three")
        (chatKey "7")).items.length ≤ 3) ∧
    (liveItems (storeGet fullRingStore (chatKey "7")) 41 = turnA :: turnB :: turnC :: [] ∧
     (storeGet (SaveChatMessage fullRingStore 41 "7" "user" "question three")
        (chatKey "7")).items = [⟨"user", "question three", 41⟩, turnA, turnB]) ∧
    (41 + 600 ≤ 641 ∧
     GetChatHistory (SaveChatMessage fullRingStore 41 "7" "user" "question three") 641 "7" = []) :=
  ⟨(C5_chat_ring_bound_and_expiry.1 fullRingStore 41 "7" "user" "question three").1,
   ⟨rfl, C5_chat_ring_bound_and_expiry.2.1 fullRingStore 41 "7" "user" "question three"
      turnA turnB turnC [] rfl⟩,
   ⟨by decide, C5_chat_ring_bound_and_expiry.2.2 fullRingStore 41 "7" "user" "question three"
      641 (by decide)⟩⟩

/-- C7: every `UpdateProgress` call appends exactly one new `TaskProgress`
audit row — never deduplicated — so `n` calls with identical arguments
append `n` rows. -/
theorem C7_audit_rows_append :
    (∀ db now taskID progress impl notes updatedBy,
       (UpdateProgress db now taskID progress impl notes updatedBy).taskProgressRows
         = db.taskProgressRows ++ [⟨taskID, progress, impl, notes, updatedBy, now⟩]) ∧
    (∀ db now taskID progress impl notes updatedBy n,
       ((fun d => UpdateProgress d now taskID progress impl notes updatedBy)^[n] db).taskProgressRows.length
         = db.taskProgressRows.length + n) := by
  refine ⟨fun db now taskID progress impl notes updatedBy => rfl, ?_⟩
  intro db now taskID progress impl notes updatedBy n
  induction n generalizing db with
  | zero => rfl
  | succ n ih =>
    rw [Function.iterate_succ_apply]
    rw [ih]
    simp [UpdateProgress]
    omega

/-- C8: adding an item to a missing parent order fails with the
record-not-found error and creates no row; on an existing parent the created
item's line total is `quantity * unitPrice` computed at creation time. -/
theorem C8_add_item_parent_and_total :
    (∀ db orderID itemName quantity price description,
       db.orders.find? (fun o => o.id == orderID) = none →
       AddItemToOrder db orderID itemName quantity price description
         = .error "record not found") ∧
    (∀ db orderID itemName quantity price description db1,
       AddItemToOrder db orderID itemName quantity price description = .ok db1 →
       db1.orderItems = db.orderItems ++
         [⟨0, orderID, itemName, quantity, price, (quantity : Rat) * price,
           description, ItemPending⟩] ∧
       db1.orders = db.orders) := by
  constructor
  · intro db orderID itemName quantity price description h
    unfold AddItemToOrder OrderRepoGetByID
    rw [h]
  · intro db orderID itemName quantity price description db1 h
    unfold AddItemToOrder OrderRepoGetByID at h
    cases hf : db.orders.find? (fun o => o.id == orderID) with
    | none => rw [hf] at h; simp at h
    | some o =>
      rw [hf] at h
      simp only [Except.ok.injEq] at h
      subst h
      exact ⟨rfl, rfl⟩

/-- Witness for C8: a missing parent (id 999) fails, an existing parent
(id 1) yields the computed line total. -/
theorem C8_add_item_parent_and_total_witness :
    (oneOrderDB.orders.find? (fun o => o.id == 999) = none ∧
     AddItemToOrder oneOrderDB 999 "Laptop" 2 5 "" = .error "record not found") ∧
    (∃ db1, AddItemToOrder oneOrderDB 1 "Laptop" 2 5 "spare" = .ok db1 ∧
       db1.orderItems = oneOrderDB.orderItems ++
         [⟨0, 1, "Laptop", 2, 5, ((2 : Int) : Rat) * 5, "spare", ItemPending⟩] ∧
       db1.orders = oneOrderDB.orders) :=
  ⟨⟨rfl, C8_add_item_parent_and_total.1 oneOrderDB 999 "Laptop" 2 5 "" rfl⟩,
   ⟨_, rfl, C8_add_item_parent_and_total.2 oneOrderDB 1 "Laptop" 2 5 "spare" _ rfl⟩⟩

/-- C9: the claim asks for a defined completion rate on an order with zero
items; the code divides `completedItems` by `totalItems` without a guard, so
on the concrete store whose order 1 has no items the completion rate is the
IEEE `NaN` produced by `0.0 / 0.0`, not a defined number. -/
theorem C9_zero_items_completion_rate_nan :
    OrderItemsGetByOrderID oneOrderDB 1 = [] ∧
    (GetOrderItemsSummary oneOrderDB 1).completionRate = GoFloat.nan ∧
    (GetOrderItemsSummary oneOrderDB 1).totalItems = 0 := by
  refine ⟨rfl, ?_, rfl⟩
  show goMul (goDiv 0 0) 100 = GoFloat.nan
  rfl

/-- C6: every `/update_progress` invocation bounds-checks the percentage
argument to `[0,100]`; an unparsable or out-of-range value (or, checked
first, an unparsable task id) produces an invalid-argument response with no
service call and no store change. -/
theorem C6_progress_bounds_checked (db : DB) (now userID : Nat)
    (a0 pstr : String) (rest : List String)
    (hbad : goAtoi pstr = none ∨ ∃ p, goAtoi pstr = some p ∧ (p < 0 ∨ p > 100)) :
    (updateTaskProgress db now userID ([a0, pstr] ++ rest)).2.1 = db ∧
    (updateTaskProgress db now userID ([a0, pstr] ++ rest)).2.2 = [] ∧
    ((updateTaskProgress db now userID ([a0, pstr] ++ rest)).1 = "❌ Invalid task ID" ∨
     (updateTaskProgress db now userID ([a0, pstr] ++ rest)).1
       = "❌ Invalid progress percentage (0-100)") := by
  unfold updateTaskProgress
  simp only [List.cons_append, List.nil_append]
  cases hu : goParseUint32 a0 with
  | none => exact ⟨rfl, rfl, Or.inl rfl⟩
  | some taskID =>
    rcases hbad with hnone | ⟨p, hp, hrange⟩
    · rw [hnone]
      exact ⟨rfl, rfl, Or.inr rfl⟩
    · rw [hp]
      dsimp only
      rw [if_pos (by rcases hrange with h | h <;> simp [h])]
      exact ⟨rfl, rfl, Or.inr rfl⟩

/-- Witness for C6 at both an unparsable and an out-of-range percentage. -/
theorem C6_progress_bounds_checked_witness :
    (goAtoi "abc" = none ∧
     (updateTaskProgress implementedTaskDB 9 3 ["1", "abc"]).2.1 = implementedTaskDB ∧
     (updateTaskProgress implementedTaskDB 9 3 ["1", "abc"]).2.2 = [] ∧
     ((updateTaskProgress implementedTaskDB 9 3 ["1", "abc"]).1 = "❌ Invalid task ID" ∨
      (updateTaskProgress implementedTaskDB 9 3 ["1", "abc"]).1
        = "❌ Invalid progress percentage (0-100)")) ∧
    (goAtoi "150" = some 150 ∧
     (updateTaskProgress implementedTaskDB 9 3 ["1", "150"]).2.2 = []) :=
  ⟨⟨rfl, C6_progress_bounds_checked implementedTaskDB 9 3 "1" "abc" [] (Or.inl rfl)⟩,
   ⟨rfl, (C6_progress_bounds_checked implementedTaskDB 9 3 "1" "150" []
      (Or.inr ⟨150, rfl, Or.inr (by decide)⟩)).2.1⟩⟩

/-- C10: the chat `/update_progress` handler passes a hard-coded implemented
flag of `false` and empty notes to `UpdateTaskProgress`, so a valid call
resets any task with the matching id — including one whose implemented flag
was `true` — to `isImplemented = false` with empty notes. -/
theorem C10_update_progress_resets_implemented (db : DB) (now userID : Nat)
    (tidStr pstr : String) (tid : Nat) (p : Int)
    (htid : goParseUint32 tidStr = some tid)
    (hp : goAtoi pstr = some p) (h0 : 0 ≤ p) (h1 : p ≤ 100) :
    updateTaskProgress db now userID [tidStr, pstr]
      = ("✅ Task progress updated to " ++ goFmtInt p ++ "%",
         UpdateProgress db now tid p false "" userID,
         [SvcCall.updateTaskProgressCall tid p false "" userID]) ∧
    ∀ t ∈ (UpdateProgress db now tid p false "" userID).tasks,
      t.id = tid →
        t.isImplemented = false ∧ t.implementationNotes = "" ∧
        t.completionPercentage = p := by
  constructor
  · unfold updateTaskProgress
    dsimp only
    rw [htid, hp]
    dsimp only
    rw [if_neg (by simp; omega)]
    rfl
  · intro t ht hid
    simp only [UpdateProgress, List.mem_map] at ht
    obtain ⟨s, hs, rfl⟩ := ht
    by_cases hmatch : s.id == tid
    · simp [hmatch]
    · rw [if_neg (by simpa using hmatch)] at hid ⊢
      exact absurd hid (by simpa using hmatch)

/-- Witness for C10: updating a task whose implemented flag is currently
true resets the flag and empties the notes. -/
theorem C10_update_progress_resets_implemented_witness :
    (goParseUint32 "1" = some 1 ∧ goAtoi "50" = some 50 ∧
     (0 : Int) ≤ 50 ∧ (50 : Int) ≤ 100) ∧
    updateTaskProgress implementedTaskDB 9 3 ["1", "50"]
      = ("✅ Task progress updated to " ++ goFmtInt 50 ++ "%",
         UpdateProgress implementedTaskDB 9 1 50 false "" 3,
         [SvcCall.updateTaskProgressCall 1 50 false "" 3]) ∧
    ({ emptyTask with
       id := 1, title := "Deploy", assignedTo := 2, status := "pending",
       completionPercentage := 50, isImplemented := false,
       implementationNotes := "" } : Task) ∈
        (UpdateProgress implementedTaskDB 9 1 50 false "" 3).tasks ∧
    ({ emptyTask with
       id := 1, title := "Deploy", assignedTo := 2, status := "pending",
       completionPercentage := 50, isImplemented := false,
       implementationNotes := "" } : Task).isImplemented = false ∧
    implementedTaskDB.tasks.map Task.isImplemented = [true] :=
  ⟨⟨rfl, rfl, by decide, by decide⟩,
   (C10_update_progress_resets_implemented implementedTaskDB 9 3 "1" "50" 1 50
      rfl rfl (by decide) (by decide)).1,
   by decide,
   ((C10_update_progress_resets_implemented implementedTaskDB 9 3 "1" "50" 1 50
      rfl rfl (by decide) (by decide)).2 _ (by decide) rfl).1,
   by decide⟩

/-- C3 counterexample: a User-role caller sending the Admin-only
`/create_order` command through `processCommand` receives the generic
unknown-command response — which is not the permission-denied response — so
the claim's "returns the permission-denied response" fails on this dispatch
path (no domain call is made, and the store is unchanged). -/
theorem C3_user_admin_command_counterexample :
    processCommand emptyDB 0 regularUser "/create_order John 1000"
      = (unknownCommandMsg, emptyDB, []) ∧
    unknownCommandMsg ≠ deniedCreateOrderMsg ∧
    ¬ goContains unknownCommandMsg "akses" = true := by
  exact ⟨rfl, by decide, by decide⟩

/-- C3 (amended): a User-role caller never triggers the underlying domain
operation. The structured AI handlers (create-order and assign-task, gated
on Admin/SuperAdmin; add-user, gated on SuperAdmin) return their
permission-denied responses with an empty call trace and unchanged store;
the slash-command dispatcher instead answers a User-role caller invoking any
admin-only command with the generic unknown-command response, likewise with
no domain call and no state change. -/
theorem C3_role_gate_amended :
    (∀ db now user resp, user.role ≠ Admin → user.role ≠ SuperAdmin →
       handleStructuredAICreateOrder db now user resp = (deniedCreateOrderMsg, db, [])) ∧
    (∀ db user resp, user.role ≠ SuperAdmin →
       handleStructuredAIAddUser db user resp = (deniedAddUserMsg, db, [])) ∧
    (∀ db user resp, user.role ≠ Admin → user.role ≠ SuperAdmin →
       handleStructuredAIAssignTask db user resp = (deniedAssignTaskMsg, db, [])) ∧
    (∀ db now user cmd args, user.role = Users → cmd ∈ adminOnlyCommands →
       dispatchCommand db now user cmd args = (unknownCommandMsg, db, [])) := by
  refine ⟨?_, ?_, ?_, ?_⟩
  · intro db now user resp hA hS
    unfold handleStructuredAICreateOrder
    rw [if_pos (by simp [hA, hS])]
  · intro db user resp hS
    unfold handleStructuredAIAddUser
    rw [if_pos (by simp [hS])]
  · intro db user resp hA hS
    unfold handleStructuredAIAssignTask
    rw [if_pos (by simp [hA, hS])]
  · intro db now user cmd args hrole hmem
    obtain ⟨uid, un, ue, up, ur, uw, ua⟩ := user
    replace hrole : ur = Users := hrole
    subst hrole
    fin_cases hmem <;> rfl

/-- Witness for C3 (amended) at a concrete User-role caller. -/
theorem C3_role_gate_amended_witness :
    (regularUser.role ≠ Admin ∧ regularUser.role ≠ SuperAdmin ∧
     regularUser.role = Users ∧ "/create_order" ∈ adminOnlyCommands) ∧
    handleStructuredAICreateOrder emptyDB 0 regularUser ⟨"create_order", [], ""⟩
      = (deniedCreateOrderMsg, emptyDB, []) ∧
    handleStructuredAIAddUser emptyDB regularUser ⟨"add_user", [], ""⟩
      = (deniedAddUserMsg, emptyDB, []) ∧
    handleStructuredAIAssignTask emptyDB regularUser ⟨"assign_task", [], ""⟩
      = (deniedAssignTaskMsg, emptyDB, []) ∧
    dispatchCommand emptyDB 0 regularUser "/create_order" ["John", "1000"]
      = (unknownCommandMsg, emptyDB, []) :=
  ⟨⟨by decide, by decide, rfl, by decide⟩,
   C3_role_gate_amended.1 emptyDB 0 regularUser ⟨"create_order", [], ""⟩
     (by decide) (by decide),
   C3_role_gate_amended.2.1 emptyDB regularUser ⟨"add_user", [], ""⟩ (by decide),
   C3_role_gate_amended.2.2.1 emptyDB regularUser ⟨"assign_task", [], ""⟩
     (by decide) (by decide),
   C3_role_gate_amended.2.2.2 emptyDB 0 regularUser "/create_order" ["John", "1000"]
     rfl (by decide)⟩

/-- C4 counterexample: with a real API key configured, a transport failure
(timeout) on the classifier call is returned as an error with an empty
intent tag — the local regex classifier is not consulted (its result on the
same message would be the "order" intent); and the regex classifier itself
returns "unknown" together with an error on a message matching no coarse
pattern, not a "general" intent. -/
theorem C4_fallback_counterexample :
    (ProcessWithOpenAI ⟨"sk-live-key"⟩ (.httpErr "context deadline exceeded") [] 0
        "buat order John Doe 1000000" "1").1
      = ("", AIResult.empty, some "context deadline exceeded") ∧
    (ProcessWhatsAppMessage "buat order John Doe 1000000").1 = "order" ∧
    (ProcessWithOpenAI ⟨"sk-live-key"⟩ (.httpErr "context deadline exceeded") [] 0
        "buat order John Doe 1000000" "1").1
      ≠ ProcessWhatsAppMessage "buat order John Doe 1000000" ∧
    ProcessWhatsAppMessage "halo"
      = ("unknown", .empty, some "unable to process message type") := by
  exact ⟨rfl, rfl, by decide, rfl⟩

/-- C4 (amended): the local regex classifier is consulted only when the API
key is empty or the placeholder; with a configured key every transport or
decode failure of the classifier call is returned as an error (empty intent
tag, no fallback, store unchanged). The regex classifier is deterministic:
order-like when the lower-cased trimmed message contains "order" or "total"
(checked first), task-like when it contains "task" or "create", and
otherwise it returns the tag "unknown" together with an error — the order
and task paths never return an error. -/
theorem C4_fallback_amended :
    (∀ a outcome st now message userID,
       a.apiKey = "" ∨ a.apiKey = "your_openai_api_key" →
       ProcessWithOpenAI a outcome st now message userID
         = (ProcessWhatsAppMessage message, st)) ∧
    (∀ a st now message userID e,
       a.apiKey ≠ "" → a.apiKey ≠ "your_openai_api_key" →
       ProcessWithOpenAI a (.httpErr e) st now message userID
         = (("", .empty, some e), st) ∧
       ProcessWithOpenAI a (.readErr e) st now message userID
         = (("", .empty, some e), st) ∧
       ProcessWithOpenAI a (.jsonErr e) st now message userID
         = (("", .empty, some e), st) ∧
       ProcessWithOpenAI a .noChoices st now message userID
         = (("", .empty, some "no response from OpenAI"), st)) ∧
    (∀ message, (goContains (goToLower (goTrimSpace message)) "order"
        || goContains (goToLower (goTrimSpace message)) "total") = true →
       ProcessWhatsAppMessage message
         = ("order",
            .orderResult (ParseOrderMessage (goToLower (goTrimSpace message)))
              (ExtractOrderItems (goToLower (goTrimSpace message))), none)) ∧
    (∀ message, (goContains (goToLower (goTrimSpace message)) "order"
        || goContains (goToLower (goTrimSpace message)) "total") = false →
       (goContains (goToLower (goTrimSpace message)) "task"
        || goContains (goToLower (goTrimSpace message)) "create") = true →
       ProcessWhatsAppMessage message
         = ("task", .taskResult (ParseTaskMessage (goToLower (goTrimSpace message))), none)) ∧
    (∀ message, (goContains (goToLower (goTrimSpace message)) "order"
        || goContains (goToLower (goTrimSpace message)) "total") = false →
       (goContains (goToLower (goTrimSpace message)) "task"
        || goContains (goToLower (goTrimSpace message)) "create") = false →
       ProcessWhatsAppMessage message
         = ("unknown", .empty, some "unable to process message type")) := by
  refine ⟨?_, ?_, ?_, ?_, ?_⟩
  · intro a outcome st now message userID h
    unfold ProcessWithOpenAI
    rcases h with h | h <;> rw [h] <;> rfl
  · intro a st now message userID e h1 h2
    have hc : (a.apiKey == "" || a.apiKey == "your_openai_api_key") = false := by
      simp [h1, h2]
    refine ⟨?_, ?_, ?_, ?_⟩ <;> (unfold ProcessWithOpenAI; rw [hc]) <;> rfl
  · intro message h
    unfold ProcessWhatsAppMessage
    dsimp only
    rw [h]
    rfl
  · intro message h1 h2
    unfold ProcessWhatsAppMessage
    dsimp only
    rw [h1, h2]
    rfl
  · intro message h1 h2
    unfold ProcessWhatsAppMessage
    dsimp only
    rw [h1, h2]
    rfl

/-- Witness for C4 (amended) at concrete keys, outcomes and messages. -/
theorem C4_fallback_amended_witness :
    (ProcessWithOpenAI ⟨""⟩ (.httpErr "boom") [] 0 "halo" "1"
       = (ProcessWhatsAppMessage "halo", []) ∧
     ProcessWithOpenAI ⟨"your_openai_api_key"⟩ .noChoices [] 0 "halo" "1"
       = (ProcessWhatsAppMessage "halo", [])) ∧
    (("sk-live-key" : String) ≠ "" ∧ ("sk-live-key" : String) ≠ "your_openai_api_key" ∧
     ProcessWithOpenAI ⟨"sk-live-key"⟩ (.jsonErr "invalid character") [] 0 "halo" "1"
       = (("", .empty, some "invalid character"), [])) ∧
    ((goContains (goToLower (goTrimSpace "buat order John")) "order"
        || goContains (goToLower (goTrimSpace "buat order John")) "total") = true ∧
     (ProcessWhatsAppMessage "buat order John").1 = "order") ∧
    ((goContains (goToLower (goTrimSpace "buat task baru")) "order"
        || goContains (goToLower (goTrimSpace "buat task baru")) "total") = false ∧
     (goContains (goToLower (goTrimSpace "buat task baru")) "task"
        || goContains (goToLower (goTrimSpace "buat task baru")) "create") = true ∧
     (ProcessWhatsAppMessage "buat task baru").1 = "task") ∧
    ProcessWhatsAppMessage "halo"
      = ("unknown", .empty, some "unable to process message type") :=
  ⟨⟨C4_fallback_amended.1 ⟨""⟩ (.httpErr "boom") [] 0 "halo" "1" (Or.inl rfl),
    C4_fallback_amended.1 ⟨"your_openai_api_key"⟩ .noChoices [] 0 "halo" "1" (Or.inr rfl)⟩,
   ⟨by decide, by decide,
    (C4_fallback_amended.2.1 ⟨"sk-live-key"⟩ [] 0 "halo" "1" "invalid character"
       (by decide) (by decide)).2.2.1⟩,
   ⟨by decide, by rw [C4_fallback_amended.2.2.1 "buat order John" (by decide)]⟩,
   ⟨by decide, by decide,
    by rw [C4_fallback_amended.2.2.2.1 "buat task baru" (by decide) (by decide)]⟩,
   C4_fallback_amended.2.2.2.2 "halo" (by decide) (by decide)⟩

end TaskManager
